import Mathlib

/-!
Verification of the proxy-client repository: a shallow embedding of
`src/proxy_client/utils.py` (port allocation) and
`src/proxy_client/client.py` (the `ProxyServer` supervisor) in Lean 4,
together with theorems settling the specification claims.

Modelling conventions:
- Python truthiness of optional / scalar values is modelled by `PyVal.truthy`
  resp. explicit `Option`/`Bool` checks mirroring each `if x:` in the source.
- Nondeterministic system interaction is parameterised by oracles:
  `rand : Nat -> Nat` stands for `random.randint` (attempt index to raw
  randomness), `bind : Nat -> Nat -> BindOutcome` gives the outcome of the
  trial socket bind at a given attempt and port, `StopEnv` records whether
  the child process honours graceful termination, and `initAt : Nat -> Bool`
  is the value of the shared `initialized` flag as seen at the k-th poll of
  the busy-wait loop.
- Exceptions become explicit result constructors; observable side effects
  (signals, waits, log lines) become an event trace.
-/

/-- A Python scalar value as it can arrive in `ProxyServer.__init__` for the
`port` argument: `None`, a string, or an integer. -/
inductive PyVal
  | none
  | str (s : String)
  | int (n : Int)
  deriving DecidableEq

/-- Python truthiness for `PyVal`: `None`, `""` and `0` are falsy. -/
def PyVal.truthy : PyVal → Bool
  | .none => false
  | .str s => s ≠ ""
  | .int n => n ≠ 0

/-- Python `f"{v}"` rendering of a `PyVal`. -/
def pyStr : PyVal → String
  | .none => "None"
  | .str s => s
  | .int n => toString n

/-- Outcome of one trial `sock.bind((bind_address, port))` in
`get_random_free_port`: success, an OSError with errno 98/48
(address in use), or any other exception. -/
inductive BindOutcome
  | ok
  | addrInUse
  | otherErr
  deriving DecidableEq

/-- Result of `get_random_free_port`: a returned port, a `ValueError`
(named PortRangeError by the spec) with the message of the source, a re-raised
unexpected bind exception, or the `RuntimeError` raised after
`max_attempts` failures (named NoFreePortError by the spec). -/
inductive PortResult
  | found (p : Nat)
  | rangeError (msg : String)
  | bindError
  | noFreePort
  deriving DecidableEq

/-- The candidate port drawn at attempt `i`:
`random.randint(start_port, end_port)`, modelled by folding the raw
randomness `rand i` into the inclusive range. -/
def candidate (startPort endPort : Nat) (rand : Nat → Nat) (i : Nat) : Nat :=
  startPort + rand i % (endPort - startPort + 1)

/-- The `for _ in range(max_attempts)` loop of `get_random_free_port`:
draw a candidate, trial-bind, return it on success, retry on
address-in-use, re-raise anything else; `RuntimeError` when fuel runs out.
`i` is the index of the current attempt. -/
def tryBindLoop (startPort endPort : Nat) (rand : Nat → Nat)
    (bind : Nat → Nat → BindOutcome) : Nat → Nat → PortResult
  | 0, _ => .noFreePort
  | fuel + 1, i =>
    match bind i (candidate startPort endPort rand i) with
    | .ok => .found (candidate startPort endPort rand i)
    | .addrInUse => tryBindLoop startPort endPort rand bind fuel (i + 1)
    | .otherErr => .bindError

/-- Function `get_random_free_port(start_port, end_port, max_attempts)` from
`src/proxy_client/utils.py`, with the two `ValueError` range checks in
source order before the bind loop. -/
def getRandomFreePort (startPort endPort maxAttempts : Nat) (rand : Nat → Nat)
    (bind : Nat → Nat → BindOutcome) : PortResult :=
  if ¬(1 ≤ startPort ∧ startPort ≤ 65535) ∨ ¬(1 ≤ endPort ∧ endPort ≤ 65535) then
    .rangeError ("Port numbers must be between 1 and 65535")
  else if startPort > endPort then
    .rangeError ("Start port must be less than or equal to end port")
  else
    tryBindLoop startPort endPort rand bind maxAttempts 0

/-- Constant `INIT_TIMEOUT` from `src/proxy_client/client.py`. -/
def INIT_TIMEOUT : Nat := 30

/-- The mutable fields of a `ProxyServer` instance
(`src/proxy_client/client.py`).  `process` and `thread` record only the
presence of the handle (Python truthiness of the `Popen` object resp. the
`Thread` object); `proxies_http` / `proxies_https` are the two entries of
the `self.proxies` dict. -/
structure ProxyServer where
  host : String
  port : PyVal
  proxy_name : String
  residential : Bool
  country : Option String
  ininit_timeout : Nat
  process : Option Unit
  thread : Option Unit
  running : Bool
  initialized : Bool
  proxies_http : String
  proxies_https : String
  deriving DecidableEq

/-- Python truthiness of `self.country` (an `Optional[str]`): falsy when
`None` or the empty string. -/
def countryTruthy : Option String → Bool
  | Option.none => false
  | some s => s ≠ ""

/-- The string held by `self.country`, for the branch where it is truthy. -/
def countryVal : Option String → String
  | Option.none => ""
  | some s => s

/-- Resolution of the `port` argument in `ProxyServer.__init__`:
`self.port = port or get_random_free_port()` with the default allocator
arguments (1024, 65535, 100).  Allocation failure propagates out of the
constructor. -/
def resolvePort (port : PyVal) (rand : Nat → Nat)
    (bind : Nat → Nat → BindOutcome) : Except PortResult PyVal :=
  if port.truthy then .ok port
  else
    match getRandomFreePort 1024 65535 100 rand bind with
    | .found p => .ok (.int p)
    | r => .error r

/-- Constructor `ProxyServer.__init__`.  `self.ininit_timeout = init_timeout or
INIT_TIMEOUT` (Python truthiness: `None` and `0` both fall back), and the
`self.proxies` dict is computed once here from host and resolved port. -/
def mkProxyServer (proxy_name : String) (port : PyVal) (country : Option String)
    (residential : Bool) (init_timeout : Option Nat) (rand : Nat → Nat)
    (bind : Nat → Nat → BindOutcome) : Except PortResult ProxyServer :=
  (resolvePort port rand bind).map fun resolved =>
    let host := "localhost"
    { host := host
      port := resolved
      proxy_name := proxy_name
      residential := residential
      country := country
      ininit_timeout :=
        match init_timeout with
        | some t => if t = 0 then INIT_TIMEOUT else t
        | Option.none => INIT_TIMEOUT
      process := Option.none
      thread := Option.none
      running := false
      initialized := false
      proxies_http := "http://" ++ host ++ ":" ++ pyStr resolved
      proxies_https := "http://" ++ host ++ ":" ++ pyStr resolved }

/-- Method `ProxyServer._construct_command`: executable name, the bind-address
flag, then the proxy-type flag when `self.residential` is truthy, then the
country flag when `self.country` is truthy. -/
def constructCommand (s : ProxyServer) : List String :=
  let cmd := [s.proxy_name, "-bind-address", s.host ++ ":" ++ pyStr s.port]
  let cmd := if s.residential then cmd ++ ["-proxy-type", "lum"] else cmd
  let cmd := if countryTruthy s.country then cmd ++ ["-country", countryVal s.country] else cmd
  cmd

/-- Observable actions of `ProxyServer.stop` and of the initialization
wait, in the order the source performs them. -/
inductive StopEvent
  | printStopping
  | terminate
  | waitTimeout (secs : Nat)
  | warnForceKill
  | kill
  | waitUnbounded
  | logStopError
  | printStopped
  | joinThread
  deriving DecidableEq

/-- Environment for one `stop()` call: whether `self.process.terminate()`
raises an exception other than `TimeoutExpired`, and whether the process
exits within the 5-second grace period of `self.process.wait(timeout=5)`. -/
structure StopEnv where
  termError : Bool
  exitsWithinGrace : Bool

/-- The grace period passed to `self.process.wait(timeout=5)` in
`ProxyServer.stop`. -/
def gracePeriod : Nat := 5

/-- The guarded block of `ProxyServer.stop`: when a process handle exists
and `running` is true, attempt graceful termination with the bounded wait;
on `TimeoutExpired` log a warning, kill, and wait unboundedly; any other
exception is caught and logged; the `finally` clause forces
`running := false` on each of these paths.  Returns the updated state and
the event trace. -/
def stopBody (s : ProxyServer) (env : StopEnv) : ProxyServer × List StopEvent :=
  if s.process.isSome && s.running then
    if env.termError then
      ({ s with running := false },
        [.printStopping, .terminate, .logStopError, .printStopped])
    else if env.exitsWithinGrace then
      ({ s with running := false },
        [.printStopping, .terminate, .waitTimeout gracePeriod, .printStopped])
    else
      ({ s with running := false },
        [.printStopping, .terminate, .waitTimeout gracePeriod,
         .warnForceKill, .kill, .waitUnbounded, .printStopped])
  else (s, [])

/-- Method `ProxyServer.stop` in full: the guarded termination block (`stopBody`)
followed by `if self.thread: self.thread.join()`. -/
def ProxyServer.stop (s : ProxyServer) (env : StopEnv) : ProxyServer × List StopEvent :=
  if (stopBody s env).1.thread.isSome then
    ((stopBody s env).1, (stopBody s env).2 ++ [.joinThread])
  else stopBody s env

/-- Result of `ProxyServer._wait_for_initialization`: normal return, or
the raised exception (named InitializationTimeoutError by the spec) carrying the
vendor name and configured timeout from its message string. -/
inductive WaitResult
  | ok
  | initTimeoutError (vendor : String) (timeoutSecs : Nat)
  deriving DecidableEq

/-- The polling loop of `_wait_for_initialization`:
`while not self.initialized and time.time() - start_time < timeout:
sleep(0.5)`.  Each iteration advances time by half a second, so the loop
runs at most `2 * timeout` iterations; `initAt k` is the value of the
shared `initialized` flag read at the k-th check.  Returns the iteration
index at which the loop exits. -/
def waitIters (initAt : Nat → Bool) : Nat → Nat → Nat
  | 0, k => k
  | fuel + 1, k => if initAt k then k else waitIters initAt fuel (k + 1)

/-- Method `ProxyServer._wait_for_initialization`: run the polling loop; if the
flag is still false afterwards, call `self.stop()` and raise the timeout
exception carrying `self.proxy_name` and `self.ininit_timeout`.  Returns
the result, the state after the call, and the trace of stop events. -/
def waitForInitialization (s : ProxyServer) (initAt : Nat → Bool)
    (env : StopEnv) : WaitResult × ProxyServer × List StopEvent :=
  let k := waitIters initAt (2 * s.ininit_timeout) 0
  if initAt k then (.ok, s, [])
  else
    let (s1, evs) := s.stop env
    (.initTimeoutError s.proxy_name s.ininit_timeout, s1, evs)

/-- A concrete supervisor state mid-run (process spawned, monitor thread
alive, readiness marker never seen), used to instantiate the lifecycle
theorems. -/
def sampleRunning : ProxyServer :=
  { host := "localhost"
    port := .int 8080
    proxy_name := "opera-proxy"
    residential := false
    country := Option.none
    ininit_timeout := 30
    process := some ()
    thread := some ()
    running := true
    initialized := false
    proxies_http := "http://localhost:8080"
    proxies_https := "http://localhost:8080"
  }

/-- The state produced by
`ProxyServer("hola-proxy", "8080", country="us", residential=True)`,
used to instantiate the constructor and command-builder theorems. -/
def sampleConstructed : ProxyServer :=
  { host := "localhost"
    port := .str ("8080")
    proxy_name := "hola-proxy"
    residential := true
    country := some ("us")
    ininit_timeout := 30
    process := Option.none
    thread := Option.none
    running := false
    initialized := false
    proxies_http := "http://localhost:8080"
    proxies_https := "http://localhost:8080"
  }

/-! ## Helper lemmas about the bind loop -/

/-- The bind loop never produces a range error: the `ValueError` checks
happen before it runs. -/
theorem tryBindLoop_ne_rangeError (sp ep : Nat) (rand : Nat → Nat)
    (bind : Nat → Nat → BindOutcome) (msg : String) :
    ∀ fuel i, tryBindLoop sp ep rand bind fuel i ≠ .rangeError msg := by
  intro fuel
  induction fuel with
  | zero => intro i h; simp [tryBindLoop] at h
  | succ n ih =>
    intro i h
    simp only [tryBindLoop] at h
    cases hb : bind i (candidate sp ep rand i) <;> rw [hb] at h
    · simp at h
    · exact ih (i + 1) h
    · simp at h

/-- A port returned by the bind loop was a drawn candidate on which the
trial bind succeeded. -/
theorem tryBindLoop_found (sp ep : Nat) (rand : Nat → Nat)
    (bind : Nat → Nat → BindOutcome) :
    ∀ fuel i p, tryBindLoop sp ep rand bind fuel i = .found p →
      ∃ j, j < fuel ∧ candidate sp ep rand (i + j) = p ∧
        bind (i + j) (candidate sp ep rand (i + j)) = .ok := by
  intro fuel
  induction fuel with
  | zero => intro i p h; simp [tryBindLoop] at h
  | succ n ih =>
    intro i p h
    simp only [tryBindLoop] at h
    cases hb : bind i (candidate sp ep rand i) <;> rw [hb] at h
    · refine ⟨0, Nat.succ_pos n, ?_, ?_⟩
      · simpa using h
      · simpa using hb
    · obtain ⟨j, hj, hc, hb2⟩ := ih (i + 1) p h
      have hshift : i + (j + 1) = i + 1 + j := by omega
      exact ⟨j + 1, by omega, by rw [hshift]; exact hc, by rw [hshift]; exact hb2⟩
    · simp at h

/-- The bind loop exhausts its fuel exactly when every drawn candidate
fails with address-in-use. -/
theorem tryBindLoop_noFreePort (sp ep : Nat) (rand : Nat → Nat)
    (bind : Nat → Nat → BindOutcome) :
    ∀ fuel i, tryBindLoop sp ep rand bind fuel i = .noFreePort ↔
      ∀ j, j < fuel → bind (i + j) (candidate sp ep rand (i + j)) = .addrInUse := by
  intro fuel
  induction fuel with
  | zero =>
    intro i
    simp [tryBindLoop]
  | succ n ih =>
    intro i
    simp only [tryBindLoop]
    cases hb : bind i (candidate sp ep rand i)
    · constructor
      · intro h; simp at h
      · intro h
        have h0 := h 0 (Nat.succ_pos n)
        simp [hb] at h0
    · rw [ih (i + 1)]
      constructor
      · intro h j hj
        match j with
        | 0 => simpa using hb
        | k + 1 =>
          have hshift : i + (k + 1) = i + 1 + k := by omega
          rw [hshift]
          exact h k (by omega)
      · intro h j hj
        have hshift : i + 1 + j = i + (j + 1) := by omega
        rw [hshift]
        exact h (j + 1) (by omega)
    · constructor
      · intro h; simp at h
      · intro h
        have h0 := h 0 (Nat.succ_pos n)
        simp [hb] at h0

/-- The bind loop re-raises exactly when some attempt fails with an
unexpected error, all earlier attempts having failed with address-in-use. -/
theorem tryBindLoop_bindError (sp ep : Nat) (rand : Nat → Nat)
    (bind : Nat → Nat → BindOutcome) :
    ∀ fuel i, tryBindLoop sp ep rand bind fuel i = .bindError ↔
      ∃ j, j < fuel ∧ bind (i + j) (candidate sp ep rand (i + j)) = .otherErr ∧
        ∀ k, k < j → bind (i + k) (candidate sp ep rand (i + k)) = .addrInUse := by
  intro fuel
  induction fuel with
  | zero =>
    intro i
    simp [tryBindLoop]
  | succ n ih =>
    intro i
    simp only [tryBindLoop]
    cases hb : bind i (candidate sp ep rand i)
    · constructor
      · intro h; simp at h
      · rintro ⟨j, hj, hother, hall⟩
        match j with
        | 0 => simp [hb] at hother
        | k + 1 =>
          have h0 := hall 0 (Nat.succ_pos k)
          simp [hb] at h0
    · rw [ih (i + 1)]
      constructor
      · rintro ⟨j, hj, hother, hall⟩
        refine ⟨j + 1, by omega, ?_, ?_⟩
        · have hshift : i + (j + 1) = i + 1 + j := by omega
          rw [hshift]; exact hother
        · intro k hk
          match k with
          | 0 => simpa using hb
          | m + 1 =>
            have hshift : i + (m + 1) = i + 1 + m := by omega
            rw [hshift]
            exact hall m (by omega)
      · rintro ⟨j, hj, hother, hall⟩
        match j with
        | 0 => simp [hb] at hother
        | k + 1 =>
          refine ⟨k, by omega, ?_, ?_⟩
          · have hshift : i + 1 + k = i + (k + 1) := by omega
            rw [hshift]; exact hother
          · intro m hm
            have hshift : i + 1 + m = i + (m + 1) := by omega
            rw [hshift]
            exact hall (m + 1) (by omega)
    · constructor
      · intro _
        exact ⟨0, Nat.succ_pos n, by simpa using hb, fun k hk => absurd hk (by omega)⟩
      · intro _; rfl

/-! ## Port allocator claims -/

/-- Claim C6: `get_random_free_port` raises `PortRangeError` exactly when
`startPort > endPort` or a bound lies outside [1, 65535]; on such inputs
the outcome is independent of the bind oracle (no bind is attempted), and
on all other inputs no range error is produced. -/
theorem c6_port_range_error (sp ep ma : Nat) (rand : Nat → Nat)
    (bind : Nat → Nat → BindOutcome) :
    ((∃ msg, getRandomFreePort sp ep ma rand bind = .rangeError msg) ↔
      (ep < sp ∨ sp < 1 ∨ 65535 < sp ∨ ep < 1 ∨ 65535 < ep)) ∧
    ((ep < sp ∨ sp < 1 ∨ 65535 < sp ∨ ep < 1 ∨ 65535 < ep) →
      ∀ bind2 : Nat → Nat → BindOutcome,
        getRandomFreePort sp ep ma rand bind = getRandomFreePort sp ep ma rand bind2) := by
  constructor
  · constructor
    · rintro ⟨msg, h⟩
      by_contra hc
      push_neg at hc
      rw [getRandomFreePort, if_neg (by omega), if_neg (by omega)] at h
      exact tryBindLoop_ne_rangeError sp ep rand bind msg ma 0 h
    · intro h
      rw [getRandomFreePort]
      by_cases h1 : ¬(1 ≤ sp ∧ sp ≤ 65535) ∨ ¬(1 ≤ ep ∧ ep ≤ 65535)
      · rw [if_pos h1]
        exact ⟨_, rfl⟩
      · rw [if_neg h1, if_pos (by omega)]
        exact ⟨_, rfl⟩
  · intro h bind2
    by_cases h1 : ¬(1 ≤ sp ∧ sp ≤ 65535) ∨ ¬(1 ≤ ep ∧ ep ≤ 65535)
    · rw [getRandomFreePort, getRandomFreePort, if_pos h1, if_pos h1]
    · rw [getRandomFreePort, getRandomFreePort, if_neg h1, if_neg h1,
        if_pos (by omega), if_pos (by omega)]

/-- Witness for C6: invalid bounds (70000 > 65535) yield a range error,
and the outcome does not depend on the bind oracle. -/
theorem c6_port_range_error_witness :
    (∃ msg, getRandomFreePort 70000 80000 100 (fun _ => 0) (fun _ _ => .ok) =
      .rangeError msg) ∧
    getRandomFreePort 70000 80000 100 (fun _ => 0) (fun _ _ => .ok) =
      getRandomFreePort 70000 80000 100 (fun _ => 0) (fun _ _ => .addrInUse) :=
  ⟨(c6_port_range_error 70000 80000 100 (fun _ => 0) (fun _ _ => .ok)).1.mpr (by omega),
   (c6_port_range_error 70000 80000 100 (fun _ => 0) (fun _ _ => .ok)).2 (by omega) _⟩

/-- Claim C7: over valid bounds, a normally returned port lies in
[startPort, endPort] and was the candidate of some attempt whose trial
bind succeeded at the moment of return. -/
theorem c7_found_port_bindable (sp ep ma : Nat) (rand : Nat → Nat)
    (bind : Nat → Nat → BindOutcome) (p : Nat) (hle : sp ≤ ep)
    (h : getRandomFreePort sp ep ma rand bind = .found p) :
    sp ≤ p ∧ p ≤ ep ∧ ∃ i, i < ma ∧ candidate sp ep rand i = p ∧ bind i p = .ok := by
  rw [getRandomFreePort] at h
  by_cases h1 : ¬(1 ≤ sp ∧ sp ≤ 65535) ∨ ¬(1 ≤ ep ∧ ep ≤ 65535)
  · rw [if_pos h1] at h
    simp at h
  · rw [if_neg h1, if_neg (by omega)] at h
    obtain ⟨j, hj, hc, hb⟩ := tryBindLoop_found sp ep rand bind ma 0 p h
    rw [Nat.zero_add] at hc hb
    have hmod : rand j % (ep - sp + 1) < ep - sp + 1 :=
      Nat.mod_lt _ (by omega)
    have hc2 : sp + rand j % (ep - sp + 1) = p := by
      rw [candidate] at hc
      exact hc
    refine ⟨by omega, by omega, j, hj, hc, ?_⟩
    rw [hc] at hb
    exact hb

/-- Witness for C7: with a bind oracle that always succeeds and zero
randomness, the allocator over [5000, 6000] returns 5000, which the
theorem places in range with its successful bind. -/
theorem c7_found_port_bindable_witness :
    5000 ≤ 5000 ∧ 5000 ≤ 6000 ∧
      ∃ i, i < 100 ∧ candidate 5000 6000 (fun _ => 0) i = 5000 ∧
        (fun _ _ => BindOutcome.ok) i 5000 = .ok :=
  c7_found_port_bindable 5000 6000 100 (fun _ => 0) (fun _ _ => .ok) 5000
    (by omega) (by decide)

/-- Claim C8: over valid bounds, the allocator exhausts into
`NoFreePortError` exactly when all `maxAttempts` trial binds failed with
address-in-use, and it surfaces an unexpected bind failure exactly when
some attempt failed with it after only address-in-use failures. -/
theorem c8_retry_only_addr_in_use (sp ep ma : Nat) (rand : Nat → Nat)
    (bind : Nat → Nat → BindOutcome) (h1 : 1 ≤ sp) (h2 : sp ≤ ep)
    (h3 : ep ≤ 65535) :
    (getRandomFreePort sp ep ma rand bind = .noFreePort ↔
      ∀ i, i < ma → bind i (candidate sp ep rand i) = .addrInUse) ∧
    (getRandomFreePort sp ep ma rand bind = .bindError ↔
      ∃ i, i < ma ∧ bind i (candidate sp ep rand i) = .otherErr ∧
        ∀ j, j < i → bind j (candidate sp ep rand j) = .addrInUse) := by
  rw [getRandomFreePort, if_neg (by omega), if_neg (by omega)]
  constructor
  · rw [tryBindLoop_noFreePort sp ep rand bind ma 0]
    simp
  · rw [tryBindLoop_bindError sp ep rand bind ma 0]
    simp

/-- Witness for C8: one address-in-use failure followed by an unexpected
error makes the allocator surface the unexpected error immediately. -/
theorem c8_retry_only_addr_in_use_witness :
    getRandomFreePort 1 1 2 (fun _ => 0)
      (fun i _ => if i = 0 then .addrInUse else .otherErr) = .bindError :=
  (c8_retry_only_addr_in_use 1 1 2 (fun _ => 0)
      (fun i _ => if i = 0 then .addrInUse else .otherErr)
      (by omega) (by omega) (by omega)).2.mpr
    ⟨1, by omega, by decide, fun j hj => by
      have hj0 : j = 0 := by omega
      rw [hj0]
      decide⟩

/-! ## Helper lemmas about `stop` -/

/-- The termination block never touches the thread handle. -/
theorem stopBody_thread (s : ProxyServer) (env : StopEnv) :
    (stopBody s env).1.thread = s.thread := by
  rw [stopBody]
  split_ifs <;> rfl

/-- The termination block never touches the process handle. -/
theorem stopBody_process (s : ProxyServer) (env : StopEnv) :
    (stopBody s env).1.process = s.process := by
  rw [stopBody]
  split_ifs <;> rfl

/-- The state returned by `stop` is the state after the termination
block; the trailing join changes no field. -/
theorem stop_state (s : ProxyServer) (env : StopEnv) :
    (s.stop env).1 = (stopBody s env).1 := by
  rw [ProxyServer.stop]
  split_ifs <;> rfl

/-- The trace of `stop` is the termination-block trace, followed by the
thread join when a thread handle exists. -/
theorem stop_trace (s : ProxyServer) (env : StopEnv) :
    (s.stop env).2 = (stopBody s env).2 ++
      (if s.thread.isSome then [StopEvent.joinThread] else []) := by
  rw [ProxyServer.stop, stopBody_thread]
  split_ifs <;> simp

/-- After the termination block, `running` is false on every state whose
`running = true` implies a process handle exists (the invariant `run`
maintains: `self.process` is assigned before `self.running = True`). -/
theorem stopBody_running (s : ProxyServer) (env : StopEnv)
    (hinv : s.running = true → s.process.isSome = true) :
    (stopBody s env).1.running = false := by
  rw [stopBody]
  cases hr : s.running
  · simp [hr]
  · simp [hr, hinv hr]
    split_ifs <;> rfl

/-- With `running` already false, the guarded block is skipped and `stop`
degenerates to the thread join. -/
theorem stop_of_not_running (s : ProxyServer) (env : StopEnv)
    (h : s.running = false) :
    s.stop env = (s, if s.thread.isSome then [StopEvent.joinThread] else []) := by
  have hbody : stopBody s env = (s, []) := by
    rw [stopBody]
    simp [h]
  rw [ProxyServer.stop, hbody]
  split_ifs <;> simp

/-! ## Supervisor lifecycle claims -/

/-- Claim C2: on a running process whose graceful signal is delivered
without error, `stop` first sends the termination signal and waits with
the fixed 5-second grace period; it escalates to the kill signal, the
unbounded wait and the warning log exactly when the process does not exit
within the grace period. -/
theorem c2_stop_grace_then_escalate (s : ProxyServer) (env : StopEnv)
    (hp : s.process.isSome = true) (hr : s.running = true)
    (ht : env.termError = false) :
    gracePeriod = 5 ∧
    (s.stop env).2.take 3 =
      [StopEvent.printStopping, StopEvent.terminate, StopEvent.waitTimeout 5] ∧
    (StopEvent.kill ∈ (s.stop env).2 ↔ env.exitsWithinGrace = false) ∧
    (StopEvent.waitUnbounded ∈ (s.stop env).2 ↔ env.exitsWithinGrace = false) ∧
    (StopEvent.warnForceKill ∈ (s.stop env).2 ↔ env.exitsWithinGrace = false) ∧
    (env.exitsWithinGrace = false →
      (s.stop env).2.take 7 =
        [StopEvent.printStopping, StopEvent.terminate, StopEvent.waitTimeout 5,
         StopEvent.warnForceKill, StopEvent.kill, StopEvent.waitUnbounded,
         StopEvent.printStopped]) := by
  rw [stop_trace s env]
  have hbody : stopBody s env =
      if env.exitsWithinGrace then
        ({ s with running := false },
          [.printStopping, .terminate, .waitTimeout gracePeriod, .printStopped])
      else
        ({ s with running := false },
          [.printStopping, .terminate, .waitTimeout gracePeriod,
           .warnForceKill, .kill, .waitUnbounded, .printStopped]) := by
    rw [stopBody]
    simp [hp, hr, ht]
  rw [hbody]
  cases hg : env.exitsWithinGrace <;> cases hth : s.thread <;>
    simp [gracePeriod]

/-- Witness for C2: a running supervisor whose process ignores the
graceful signal reaches the kill escalation. -/
theorem c2_stop_grace_then_escalate_witness :
    StopEvent.kill ∈
      (sampleRunning.stop { termError := false, exitsWithinGrace := false }).2 :=
  ((c2_stop_grace_then_escalate sampleRunning
      { termError := false, exitsWithinGrace := false }
      rfl rfl rfl).2.2.1).mpr rfl

/-- Claim C3: on every return path of `stop` (graceful exit, forced kill,
caught signalling error) the `running` flag is false on return, given the
invariant that `running = true` implies a process handle exists. -/
theorem c3_stop_clears_running (s : ProxyServer) (env : StopEnv)
    (hinv : s.running = true → s.process.isSome = true) :
    (s.stop env).1.running = false := by
  rw [stop_state]
  exact stopBody_running s env hinv

/-- Witness for C3: the error path (`terminate` raising) still returns
with `running = false`. -/
theorem c3_stop_clears_running_witness :
    (sampleRunning.stop { termError := true, exitsWithinGrace := false }).1.running
      = false :=
  c3_stop_clears_running sampleRunning
    { termError := true, exitsWithinGrace := false } (fun _ => rfl)

/-- Claim C4: with `running` already false, `stop` raises nothing and
changes no state; its only action is joining the monitoring thread when a
handle exists.  In particular a second `stop` right after a first one is
such a no-op. -/
theorem c4_stop_idempotent (s : ProxyServer) (env env2 : StopEnv)
    (h : s.running = false) :
    (s.stop env).1 = s ∧
    (s.stop env).2 = (if s.thread.isSome then [StopEvent.joinThread] else []) ∧
    (∀ t : ProxyServer, (t.running = true → t.process.isSome = true) →
      ((t.stop env).1.stop env2).1 = (t.stop env).1 ∧
      ((t.stop env).1.stop env2).2 =
        (if t.thread.isSome then [StopEvent.joinThread] else [])) := by
  have hnoop := stop_of_not_running s env h
  refine ⟨?_, ?_, ?_⟩
  · rw [hnoop]
  · rw [hnoop]
  · intro t hinv
    have hrun : (t.stop env).1.running = false := by
      rw [stop_state]
      exact stopBody_running t env hinv
    have hsecond := stop_of_not_running (t.stop env).1 env2 hrun
    have hthread : (t.stop env).1.thread = t.thread := by
      rw [stop_state]
      exact stopBody_thread t env
    rw [hsecond, hthread]
    exact ⟨rfl, rfl⟩

/-- Witness for C4: stopping a never-started supervisor is a no-op, and a
second `stop` after stopping a running one only re-joins the thread. -/
theorem c4_stop_idempotent_witness :
    ((sampleConstructed.stop { termError := false, exitsWithinGrace := true }).1
        = sampleConstructed) ∧
    ((sampleRunning.stop { termError := false, exitsWithinGrace := true }).1.stop
        { termError := false, exitsWithinGrace := true }).2
      = [StopEvent.joinThread] := by
  have h := c4_stop_idempotent sampleConstructed
    { termError := false, exitsWithinGrace := true }
    { termError := false, exitsWithinGrace := true } rfl
  refine ⟨h.1, ?_⟩
  have h2 := (h.2.2 sampleRunning (fun _ => rfl)).2
  rw [h2]
  decide

/-! ## Initialization wait claim -/

/-- Claim C1: when the readiness marker is never observed (the shared
`initialized` flag stays false at every poll), the blocking wait first
invokes the stop procedure of the supervisor itself and then fails with the
initialization-timeout error carrying the vendor name and the configured
timeout; it does not return normally. -/
theorem c1_init_timeout_raises (s : ProxyServer) (initAt : Nat → Bool)
    (env : StopEnv) (h : ∀ k, initAt k = false) :
    waitForInitialization s initAt env =
      (.initTimeoutError s.proxy_name s.ininit_timeout,
        (s.stop env).1, (s.stop env).2) ∧
    (waitForInitialization s initAt env).1 ≠ .ok := by
  have h1 : waitForInitialization s initAt env =
      (.initTimeoutError s.proxy_name s.ininit_timeout,
        (s.stop env).1, (s.stop env).2) := by
    rw [waitForInitialization, h (waitIters initAt (2 * s.ininit_timeout) 0)]
    simp
  refine ⟨h1, ?_⟩
  rw [h1]
  simp

/-- Witness for C1: a supervisor whose monitor never sees the marker exits
the wait with the timeout error, not normally. -/
theorem c1_init_timeout_raises_witness :
    waitForInitialization sampleRunning (fun _ => false)
        { termError := false, exitsWithinGrace := true } =
      (.initTimeoutError ("opera-proxy") 30,
        (sampleRunning.stop { termError := false, exitsWithinGrace := true }).1,
        (sampleRunning.stop { termError := false, exitsWithinGrace := true }).2) :=
  (c1_init_timeout_raises sampleRunning (fun _ => false)
    { termError := false, exitsWithinGrace := true } (fun _ => rfl)).1

/-! ## Command builder claims -/

/-- The first three entries of every constructed command are the
executable name and the bind-address flag. -/
theorem constructCommand_take3 (s : ProxyServer) :
    (constructCommand s).take 3 =
      [s.proxy_name, "-bind-address", s.host ++ ":" ++ pyStr s.port] := by
  rw [constructCommand]
  cases hres : s.residential <;> cases hcc : countryTruthy s.country <;>
    simp [hres, hcc]

/-- Claim C5: the command builder is a pure function of the configuration:
the vector is the executable name, then the bind-address flag with
`host:port`, then `-proxy-type lum` exactly once precisely when
`residential` is truthy, then `-country CODE` precisely when a country
code is present; with no country the flag is absent entirely.  The
disequality hypotheses rule out the configuration strings colliding with
the flag tokens themselves. -/
theorem c5_command_builder (s : ProxyServer)
    (h1 : s.proxy_name ≠ "-proxy-type") (h2 : s.proxy_name ≠ "-country")
    (h3 : s.host ++ ":" ++ pyStr s.port ≠ "-proxy-type")
    (h4 : s.host ++ ":" ++ pyStr s.port ≠ "-country")
    (h5 : countryVal s.country ≠ "-proxy-type")
    (h6 : countryVal s.country ≠ "-country") :
    constructCommand s =
      [s.proxy_name, "-bind-address", s.host ++ ":" ++ pyStr s.port] ++
        (if s.residential then ["-proxy-type", "lum"] else []) ++
        (if countryTruthy s.country then ["-country", countryVal s.country]
          else []) ∧
    List.count ("-proxy-type") (constructCommand s) =
      (if s.residential then 1 else 0) ∧
    List.count ("-country") (constructCommand s) =
      (if countryTruthy s.country then 1 else 0) ∧
    (countryTruthy s.country = false → "-country" ∉ constructCommand s) := by
  have hstruct : constructCommand s =
      [s.proxy_name, "-bind-address", s.host ++ ":" ++ pyStr s.port] ++
        (if s.residential then ["-proxy-type", "lum"] else []) ++
        (if countryTruthy s.country then ["-country", countryVal s.country]
          else []) := by
    rw [constructCommand]
    cases hres : s.residential <;> cases hcc : countryTruthy s.country <;>
      simp [hres, hcc]
  refine ⟨hstruct, ?_, ?_, ?_⟩ <;> rw [hstruct] <;>
    cases hres : s.residential <;> cases hcc : countryTruthy s.country <;>
      simp [List.count_append, List.count_cons, h1, h2, h3, h4, h5, h6,
        Ne.symm h1, Ne.symm h2, Ne.symm h3, Ne.symm h4, Ne.symm h5, Ne.symm h6]

/-- Witness for C5: the hola configuration with a country yields the full
vector in order. -/
theorem c5_command_builder_witness :
    constructCommand sampleConstructed =
      ["hola-proxy", "-bind-address", "localhost:8080", "-proxy-type", "lum",
       "-country", "us"] := by
  rw [(c5_command_builder sampleConstructed (by decide) (by decide) (by decide)
    (by decide) (by decide) (by decide)).1]
  decide

/-! ## Constructor claims -/

/-- Claim C9: both endpoint strings are computed once at construction and
are equal to the same `http://host:port` value; the `https` entry also
uses the `http` scheme. -/
theorem c9_proxies_both_http_scheme (pn : String) (port : PyVal)
    (country : Option String) (residential : Bool) (it : Option Nat)
    (rand : Nat → Nat) (bind : Nat → Nat → BindOutcome) (s : ProxyServer)
    (h : mkProxyServer pn port country residential it rand bind = .ok s) :
    s.proxies_http = s.proxies_https ∧
    s.proxies_http = "http://" ++ s.host ++ ":" ++ pyStr s.port := by
  unfold mkProxyServer at h
  cases hres : resolvePort port rand bind with
  | error e =>
    rw [hres] at h
    simp [Except.map] at h
  | ok v =>
    rw [hres] at h
    simp only [Except.map, Except.ok.injEq] at h
    rw [← h]
    exact ⟨rfl, rfl⟩

/-- Witness for C9: the hola construction with an explicit port yields
identical http/https URLs with the http scheme. -/
theorem c9_proxies_both_http_scheme_witness :
    sampleConstructed.proxies_http = sampleConstructed.proxies_https ∧
    sampleConstructed.proxies_http =
      "http://" ++ sampleConstructed.host ++ ":" ++ pyStr sampleConstructed.port :=
  c9_proxies_both_http_scheme ("hola-proxy") (.str ("8080")) (some ("us")) true
    Option.none (fun _ => 0) (fun _ _ => .ok) sampleConstructed rfl

/-- Claim C10: a falsy `port` argument (`None`, but also `0` and the empty
string) is replaced by a port from `get_random_free_port` over
[1024, 65535], and the resolved port is the one used in both endpoint URLs
and in the bind-address argument; a truthy caller-supplied port is stored
verbatim with no range validation. -/
theorem c10_port_resolution (pn : String) (port : PyVal)
    (country : Option String) (residential : Bool) (it : Option Nat)
    (rand : Nat → Nat) (bind : Nat → Nat → BindOutcome) :
    (port.truthy = false → ∀ p : Nat,
      getRandomFreePort 1024 65535 100 rand bind = .found p →
      ∃ s, mkProxyServer pn port country residential it rand bind = .ok s ∧
        s.port = .int p ∧
        s.proxies_http = "http://localhost:" ++ pyStr (.int p) ∧
        s.proxies_https = s.proxies_http ∧
        (constructCommand s).take 3 =
          [pn, "-bind-address", "localhost:" ++ pyStr (.int p)]) ∧
    (port.truthy = true →
      ∃ s, mkProxyServer pn port country residential it rand bind = .ok s ∧
        s.port = port) := by
  constructor
  · intro hf p hp
    have hres : resolvePort port rand bind = .ok (.int p) := by
      unfold resolvePort
      rw [hf, hp]
      rfl
    have hmk : mkProxyServer pn port country residential it rand bind =
        .ok { host := "localhost", port := .int p, proxy_name := pn,
              residential := residential, country := country,
              ininit_timeout :=
                match it with
                | some t => if t = 0 then INIT_TIMEOUT else t
                | Option.none => INIT_TIMEOUT,
              process := Option.none, thread := Option.none,
              running := false, initialized := false,
              proxies_http := "http://localhost:" ++ pyStr (.int p),
              proxies_https := "http://localhost:" ++ pyStr (.int p) } := by
      unfold mkProxyServer
      rw [hres]
      rfl
    refine ⟨_, hmk, rfl, rfl, rfl, ?_⟩
    rw [constructCommand_take3]
    rfl
  · intro htr
    have hres : resolvePort port rand bind = .ok port := by
      unfold resolvePort
      rw [htr]
      rfl
    refine ⟨{ host := "localhost", port := port, proxy_name := pn,
              residential := residential, country := country,
              ininit_timeout :=
                match it with
                | some t => if t = 0 then INIT_TIMEOUT else t
                | Option.none => INIT_TIMEOUT,
              process := Option.none, thread := Option.none,
              running := false, initialized := false,
              proxies_http := "http://localhost:" ++ pyStr port,
              proxies_https := "http://localhost:" ++ pyStr port }, ?_, rfl⟩
    unfold mkProxyServer
    rw [hres]
    rfl

/-- Witness for C10: port `0` is falsy and gets replaced by the allocated
port 1024, while the out-of-range port 999999 is stored verbatim. -/
theorem c10_port_resolution_witness :
    (∃ s, mkProxyServer ("hola-proxy") (.int 0) Option.none true Option.none
        (fun _ => 0) (fun _ _ => .ok) = .ok s ∧ s.port = .int 1024) ∧
    (∃ s, mkProxyServer ("hola-proxy") (.int 999999) Option.none true Option.none
        (fun _ => 0) (fun _ _ => .ok) = .ok s ∧ s.port = .int 999999) := by
  constructor
  · obtain ⟨s, hmk, hport, _⟩ :=
      (c10_port_resolution ("hola-proxy") (.int 0) Option.none true Option.none
        (fun _ => 0) (fun _ _ => .ok)).1 rfl 1024 (by decide)
    exact ⟨s, hmk, hport⟩
  · obtain ⟨s, hmk, hport⟩ :=
      (c10_port_resolution ("hola-proxy") (.int 999999) Option.none true
        Option.none (fun _ => 0) (fun _ _ => .ok)).2 rfl
    exact ⟨s, hmk, hport⟩
